import Mathlib

/-!
Shallow embedding of the churn-analytics pipeline in `streamlit_app.py`
(data cleaning, imputation, anomaly detection, feature derivation,
risk classification, and the rule-based explanation engines), together
with theorems settling the specification claims about it.

Modelling conventions:
* a pandas DataFrame is a `List` of records; columnwise pandas
  operations (`map`, `apply`, `fillna`, comparisons, `clip`) act
  elementwise, and are embedded as per-record functions mapped over the
  list; the one genuinely batch-sensitive construct, the
  `isna().any()` guards of `handle_missing_values`, is embedded
  verbatim as a guard on the whole list;
* a possibly-missing numeric cell (NaN) is `Option ℚ`; arithmetic on
  possibly-missing values propagates `none` the way NaN propagates,
  and a division whose denominator is zero (NaN or ±inf in numpy)
  is likewise modelled as `none`;
* pandas comparisons against NaN are `False`, so boolean-derived
  0/1 features are total `ℚ` values;
* `np.log` / `np.log1p` are externally-supplied transcendental
  functions with no bearing on any claim; they are abstracted as an
  explicit parameter `log : ℚ → ℚ` threaded through the deriver.
-/

/-- A raw customer record: the 14-column schema of the app, with every
cell possibly missing.  String cells hold the raw CSV text. -/
structure CustomerData where
  customer_id : Option String
  tenure_months : Option ℚ
  contract_type : Option String
  service_type : Option String
  monthly_charges : Option ℚ
  total_charges : Option ℚ
  payment_method : Option String
  location_type : Option String
  num_services : Option ℚ
  data_usage_gb : Option ℚ
  support_calls : Option ℚ
  autopay_enabled : Option String
  late_payment_count : Option ℚ
  referral_count : Option ℚ
deriving DecidableEq

/-- Contract-type synonym table (`contract_map` in the source). -/
def contract_map : List (String × String) :=
  [("Month-to-Month", "Month-to-Month"), ("month-to-month", "Month-to-Month"),
   ("MTM", "Month-to-Month"), ("Monthly", "Month-to-Month"),
   ("Month to Month", "Month-to-Month"), ("month to month", "Month-to-Month"),
   ("One Year", "One Year"), ("One year", "One Year"), ("one year", "One Year"),
   ("1 Year", "One Year"), ("1-Year", "One Year"), ("12 Months", "One Year"),
   ("Two Year", "Two Year"), ("Two year", "Two Year"), ("two year", "Two Year"),
   ("2 Year", "Two Year"), ("2-Year", "Two Year"), ("24 Months", "Two Year")]

/-- Payment-method synonym table (`payment_map` in the source). -/
def payment_map : List (String × String) :=
  [("M-Pesa", "M-Pesa"), ("M-pesa", "M-Pesa"), ("MPESA", "M-Pesa"),
   ("mpesa", "M-Pesa"), ("Mpesa", "M-Pesa"),
   ("Bank Transfer", "Bank Transfer"), ("Bank transfer", "Bank Transfer"),
   ("bank transfer", "Bank Transfer"), ("Bank_Transfer", "Bank Transfer"),
   ("Credit Card", "Credit Card"), ("Credit card", "Credit Card"),
   ("credit card", "Credit Card"),
   ("Debit Card", "Debit Card"), ("Debit card", "Debit Card"),
   ("debit card", "Debit Card"),
   ("Cash", "Cash"), ("cash", "Cash"), ("CASH", "Cash")]

/-- Autopay synonym table (`autopay_map` in the source; the numeric keys
`1` and `0` of the Python dict reach the lookup as the strings below). -/
def autopay_map : List (String × String) :=
  [("Yes", "Yes"), ("yes", "Yes"), ("YES", "Yes"), ("Y", "Yes"),
   ("True", "Yes"), ("true", "Yes"), ("1", "Yes"),
   ("No", "No"), ("no", "No"), ("NO", "No"), ("N", "No"),
   ("False", "No"), ("false", "No"), ("0", "No")]

/-- Canonical contract types. -/
def contract_canon : List String := ["Month-to-Month", "One Year", "Two Year"]

/-- Canonical payment methods. -/
def payment_canon : List String :=
  ["M-Pesa", "Bank Transfer", "Credit Card", "Debit Card", "Cash"]

/-- Canonical autopay values. -/
def autopay_canon : List String := ["Yes", "No"]

/-- Valid service types (`valid_services` in the source). -/
def valid_services : List String := ["Basic", "Standard", "Premium"]

/-- Valid location types (`valid_locations` in the source). -/
def valid_locations : List String := ["Urban", "Suburban", "Rural"]

/-- Python `str.strip()`: drop whitespace from both ends. -/
def str_strip (s : String) : String :=
  String.mk (((s.data.dropWhile Char.isWhitespace).reverse.dropWhile
    Char.isWhitespace).reverse)

/-- One contract-type cell: `contract_map.get(str(x).strip(), 'Month-to-Month')`. -/
def contract_norm (s : String) : String :=
  (contract_map.lookup (str_strip s)).getD "Month-to-Month"

/-- One payment-method cell: `payment_map.get(str(x).strip(), 'M-Pesa')`. -/
def payment_norm (s : String) : String :=
  (payment_map.lookup (str_strip s)).getD "M-Pesa"

/-- One autopay cell: `autopay_map.get(..., 'No')` on the stripped text. -/
def autopay_norm (s : String) : String :=
  (autopay_map.lookup (str_strip s)).getD "No"

/-- One service-type cell: `x if x in valid_services else 'Standard'`. -/
def service_norm (s : String) : String :=
  if s ∈ valid_services then s else "Standard"

/-- One location-type cell: `x if x in valid_locations else 'Urban'`. -/
def location_norm (s : String) : String :=
  if s ∈ valid_locations then s else "Urban"

/-- A missing categorical cell reaches the Python mapper as float NaN;
`str(nan) = "nan"` is in no synonym table and NaN is in no valid list,
so missing cells resolve to the per-field default. -/
def opt_norm (f : String → String) (dflt : String) (o : Option String) : String :=
  match o with
  | some s => f s
  | none => dflt

/-- Per-record `standardize_categoricals`: canonicalize the five
categorical columns, leaving all other columns untouched. -/
def standardize_record (r : CustomerData) : CustomerData :=
  { r with
    contract_type := some (opt_norm contract_norm "Month-to-Month" r.contract_type),
    payment_method := some (opt_norm payment_norm "M-Pesa" r.payment_method),
    autopay_enabled := some (opt_norm autopay_norm "No" r.autopay_enabled),
    service_type := some (opt_norm service_norm "Standard" r.service_type),
    location_type := some (opt_norm location_norm "Urban" r.location_type) }

/-- Batch `standardize_categoricals`: the pandas column maps are elementwise. -/
def standardize_categoricals (df : List CustomerData) : List CustomerData :=
  df.map standardize_record

/-- Fitted reference statistics (`fe.stats` / `fe_stats` in the source):
per-service-type medians and two global percentiles. -/
structure FeStats where
  service_type_median_charges : List (String × ℚ)
  service_type_median_usage : List (String × ℚ)
  monthly_charges_p75 : ℚ
  data_usage_p25 : ℚ
deriving DecidableEq

/-- The scalar the imputer uses for monthly charges:
`fe_stats.get('service_type_median_charges', {}).get('Standard', 5000)`. -/
def standard_median_charges (stats : FeStats) : ℚ :=
  (stats.service_type_median_charges.lookup "Standard").getD 5000

/-- The scalar the imputer uses for data usage:
`fe_stats.get('service_type_median_usage', {}).get('Standard', 70)`. -/
def standard_median_usage (stats : FeStats) : ℚ :=
  (stats.service_type_median_usage.lookup "Standard").getD 70

/-- Elementwise `monthly_charges.fillna(median)`. -/
def fill_monthly_record (stats : FeStats) (r : CustomerData) : CustomerData :=
  match r.monthly_charges with
  | some _ => r
  | none => { r with monthly_charges := some (standard_median_charges stats) }

/-- Elementwise `data_usage_gb.fillna(median)`. -/
def fill_usage_record (stats : FeStats) (r : CustomerData) : CustomerData :=
  match r.data_usage_gb with
  | some _ => r
  | none => { r with data_usage_gb := some (standard_median_usage stats) }

/-- Elementwise `total_charges.fillna(monthly_charges * tenure_months.clip(lower=1))`;
if the fill value is itself NaN (missing factor) the cell stays missing. -/
def fill_total_record (r : CustomerData) : CustomerData :=
  match r.total_charges with
  | some _ => r
  | none =>
    { r with total_charges :=
        do
          let m ← r.monthly_charges
          let t ← r.tenure_months
          pure (m * max t 1) }

/-- Elementwise `fillna(0)` on the five count columns. -/
def fill_zeros_record (r : CustomerData) : CustomerData :=
  { r with
    tenure_months := some (r.tenure_months.getD 0),
    num_services := some (r.num_services.getD 0),
    support_calls := some (r.support_calls.getD 0),
    late_payment_count := some (r.late_payment_count.getD 0),
    referral_count := some (r.referral_count.getD 0) }

/-- Elementwise `clip(lower=0)` on tenure and support calls. -/
def clip_record (r : CustomerData) : CustomerData :=
  { r with
    tenure_months := r.tenure_months.map (fun t => max t 0),
    support_calls := r.support_calls.map (fun s => max s 0) }

/-- Batch `handle_missing_values`: the three median/product fills are
guarded by `isna().any()` over the whole column, the zero fills and
clips are unconditional. -/
def handle_missing_values (stats : FeStats) (df : List CustomerData) :
    List CustomerData :=
  let df1 := if df.any (fun r => r.monthly_charges.isNone)
             then df.map (fill_monthly_record stats) else df
  let df2 := if df1.any (fun r => r.data_usage_gb.isNone)
             then df1.map (fill_usage_record stats) else df1
  let df3 := if df2.any (fun r => r.total_charges.isNone)
             then df2.map fill_total_record else df2
  let df4 := df3.map fill_zeros_record
  df4.map clip_record

/-- Per-record composition of the imputation steps, in source order. -/
def impute_record (stats : FeStats) (r : CustomerData) : CustomerData :=
  clip_record (fill_zeros_record (fill_total_record
    (fill_usage_record stats (fill_monthly_record stats r))))

/-- A cleaned record together with its `charges_anomaly_flag` column. -/
structure AnomRecord where
  row : CustomerData
  charges_anomaly_flag : ℚ
deriving DecidableEq

/-- Missing-aware strict less-than between two cells: a comparison
against NaN is `False` in pandas. -/
def oLT2 (x y : Option ℚ) : Bool :=
  match x, y with
  | some a, some b => decide (a < b)
  | _, _ => false

/-- Missing-aware `cell < c`. -/
def oLT (x : Option ℚ) (c : ℚ) : Bool :=
  match x with
  | some v => decide (v < c)
  | none => false

/-- Missing-aware `cell > c`. -/
def oGT (x : Option ℚ) (c : ℚ) : Bool :=
  match x with
  | some v => decide (c < v)
  | none => false

/-- Missing-aware `cell >= c`. -/
def oGE (x : Option ℚ) (c : ℚ) : Bool :=
  match x with
  | some v => decide (c ≤ v)
  | none => false

/-- Boolean condition as the 0/1 rational `astype(int)` produces. -/
def bQ (b : Bool) : ℚ := if b then 1 else 0

/-- Per-record `detect_anomalies`: flag is 1 exactly when
`total_charges < monthly_charges`. -/
def detect_record (r : CustomerData) : AnomRecord :=
  { row := r, charges_anomaly_flag := bQ (oLT2 r.total_charges r.monthly_charges) }

/-- Batch `detect_anomalies` (elementwise). -/
def detect_anomalies (df : List CustomerData) : List AnomRecord :=
  df.map detect_record

/-- The `contract_risk_map` of the source. -/
def contract_risk_map : List (String × ℚ) :=
  [("Month-to-Month", 2), ("One Year", 1), ("Two Year", 0)]

/-- The `service_map` of the source. -/
def service_map : List (String × ℚ) :=
  [("Basic", 0), ("Standard", 1), ("Premium", 2)]

/-- Dictionary lookup keyed by a possibly-missing cell; a missing key
(NaN) is found in no dictionary. -/
def opt_lookup (tbl : List (String × ℚ)) (o : Option String) : Option ℚ :=
  o.bind (fun s => tbl.lookup s)

/-- The engineered feature columns a record row carries after
`engineer_features` (union of both model feature sets).  Columns that
are NaN-propagating arithmetic are `Option ℚ`; columns produced by
pandas boolean comparisons (False on NaN) are total. -/
structure FeatRow where
  tenure_bin : Option ℚ
  is_new_customer : ℚ
  is_established : ℚ
  tenure_log : Option ℚ
  avg_monthly_revenue : Option ℚ
  is_high_value : ℚ
  price_sensitivity : Option ℚ
  monthly_charges_log : Option ℚ
  support_intensity : Option ℚ
  is_heavy_support : ℚ
  late_payment_flag : ℚ
  financial_stress : Option ℚ
  usage_efficiency : Option ℚ
  usage_tier_ratio : Option ℚ
  autopay_binary : ℚ
  referral_flag : ℚ
  loyalty_score : Option ℚ
  contract_risk : Option ℚ
  contract_tenure_mismatch : ℚ
  payment_friction : ℚ
  is_mpesa : ℚ
  high_value_mtm : ℚ
  new_no_autopay : ℚ
  support_late_combo : ℚ
  premium_low_usage : ℚ
  bundled_loyal : ℚ
  service_encoded : Option ℚ
  pay_bank : ℚ
  pay_credit : ℚ
  pay_debit : ℚ
  pay_cash : ℚ
  loc_suburban : ℚ
  loc_rural : ℚ
  num_services : Option ℚ
  charges_anomaly_flag : ℚ
deriving DecidableEq

/-- Per-record `engineer_features`, formulas in source order.
`log` abstracts `np.log`; `np.log1p t` is `log (1 + t)`. -/
def engineer_record (log : ℚ → ℚ) (fe : FeStats) (a : AnomRecord) : FeatRow :=
  let r := a.row
  let tenure_bin := r.tenure_months.map
    (fun t => if t ≤ 5 then (0 : ℚ) else if t ≤ 12 then 1 else if t ≤ 24 then 2 else 3)
  let is_new_customer := bQ (oLT r.tenure_months 6)
  let is_established := bQ (oGT r.tenure_months 24)
  let tenure_log := r.tenure_months.map (fun t => log (1 + t))
  let avg_monthly_revenue :=
    do
      let tc ← r.total_charges
      let t ← r.tenure_months
      pure (tc / max t 1)
  let is_high_value := bQ (oGT r.monthly_charges fe.monthly_charges_p75)
  let price_sensitivity :=
    do
      let m ← r.monthly_charges
      let den := (opt_lookup fe.service_type_median_charges r.service_type).getD m
      if den = 0 then none else pure (m / den)
  let monthly_charges_log := r.monthly_charges.map (fun m => log (max m 1))
  let support_intensity :=
    do
      let s ← r.support_calls
      let t ← r.tenure_months
      pure (s / max t 1)
  let is_heavy_support := bQ (oGT r.support_calls 5)
  let late_payment_flag := bQ (oGT r.late_payment_count 0)
  let financial_stress := r.late_payment_count.map
    (fun l => if l ≤ 0 then (0 : ℚ) else if l ≤ 2 then 1 else 2)
  let usage_efficiency :=
    do
      let u ← r.data_usage_gb
      let n ← r.num_services
      if n + 1 = 0 then none else pure (u / (n + 1))
  let usage_tier_ratio :=
    do
      let u ← r.data_usage_gb
      let den := (opt_lookup fe.service_type_median_usage r.service_type).getD (max u 1)
      if den = 0 then none else pure (u / den)
  let autopay_binary := bQ (decide (r.autopay_enabled = some "Yes"))
  let referral_flag := bQ (oGT r.referral_count 0)
  let loyalty_score := r.referral_count.map
    (fun rc => rc + is_established + autopay_binary)
  let contract_risk := opt_lookup contract_risk_map r.contract_type
  let contract_tenure_mismatch :=
    bQ (decide (r.contract_type = some "Month-to-Month") && oGT r.tenure_months 12)
  let payment_friction :=
    bQ (decide (r.payment_method = some "Cash") &&
        decide (r.autopay_enabled = some "No"))
  let is_mpesa := bQ (decide (r.payment_method = some "M-Pesa"))
  let high_value_mtm :=
    bQ (decide (is_high_value = 1) && decide (r.contract_type = some "Month-to-Month"))
  let new_no_autopay :=
    bQ (decide (is_new_customer = 1) && decide (autopay_binary = 0))
  let support_late_combo :=
    bQ (oGT r.support_calls 3 && oGT r.late_payment_count 1)
  let premium_low_usage :=
    bQ (decide (r.service_type = some "Premium") && oLT r.data_usage_gb fe.data_usage_p25)
  let bundled_loyal := bQ (oGE r.num_services 3 && oGT r.tenure_months 12)
  let service_encoded := opt_lookup service_map r.service_type
  let pay_bank := bQ (decide (r.payment_method = some "Bank Transfer"))
  let pay_credit := bQ (decide (r.payment_method = some "Credit Card"))
  let pay_debit := bQ (decide (r.payment_method = some "Debit Card"))
  let pay_cash := bQ (decide (r.payment_method = some "Cash"))
  let loc_suburban := bQ (decide (r.location_type = some "Suburban"))
  let loc_rural := bQ (decide (r.location_type = some "Rural"))
  { tenure_bin := tenure_bin,
    is_new_customer := is_new_customer,
    is_established := is_established,
    tenure_log := tenure_log,
    avg_monthly_revenue := avg_monthly_revenue,
    is_high_value := is_high_value,
    price_sensitivity := price_sensitivity,
    monthly_charges_log := monthly_charges_log,
    support_intensity := support_intensity,
    is_heavy_support := is_heavy_support,
    late_payment_flag := late_payment_flag,
    financial_stress := financial_stress,
    usage_efficiency := usage_efficiency,
    usage_tier_ratio := usage_tier_ratio,
    autopay_binary := autopay_binary,
    referral_flag := referral_flag,
    loyalty_score := loyalty_score,
    contract_risk := contract_risk,
    contract_tenure_mismatch := contract_tenure_mismatch,
    payment_friction := payment_friction,
    is_mpesa := is_mpesa,
    high_value_mtm := high_value_mtm,
    new_no_autopay := new_no_autopay,
    support_late_combo := support_late_combo,
    premium_low_usage := premium_low_usage,
    bundled_loyal := bundled_loyal,
    service_encoded := service_encoded,
    pay_bank := pay_bank,
    pay_credit := pay_credit,
    pay_debit := pay_debit,
    pay_cash := pay_cash,
    loc_suburban := loc_suburban,
    loc_rural := loc_rural,
    num_services := r.num_services,
    charges_anomaly_flag := a.charges_anomaly_flag }

/-- Batch `engineer_features` (all column formulas are elementwise). -/
def engineer_features (log : ℚ → ℚ) (fe : FeStats) (df : List AnomRecord) :
    List FeatRow :=
  df.map (engineer_record log fe)

/-- The `LR_FEATURE_SET` constant of the source, verbatim. -/
def LR_FEATURE_SET : List String :=
  ["tenure_log", "is_new_customer", "is_established",
   "service_encoded", "avg_monthly_revenue", "is_high_value", "price_sensitivity",
   "financial_stress", "support_intensity", "is_heavy_support",
   "usage_efficiency", "usage_tier_ratio",
   "autopay_binary", "referral_flag", "loyalty_score",
   "contract_risk", "contract_tenure_mismatch", "payment_friction", "is_mpesa",
   "high_value_mtm", "new_no_autopay", "support_late_combo",
   "premium_low_usage", "bundled_loyal",
   "pay_bank", "pay_credit", "pay_debit", "pay_cash",
   "loc_suburban", "loc_rural",
   "num_services", "charges_anomaly_flag"]

/-- The `XGBOOST_FEATURE_SET` constant of the source, verbatim. -/
def XGBOOST_FEATURE_SET : List String :=
  ["tenure_bin", "is_new_customer", "is_established", "tenure_log",
   "avg_monthly_revenue", "is_high_value", "price_sensitivity", "monthly_charges_log",
   "support_intensity", "is_heavy_support", "late_payment_flag", "financial_stress",
   "usage_efficiency", "usage_tier_ratio",
   "autopay_binary", "referral_flag", "loyalty_score",
   "contract_risk", "contract_tenure_mismatch", "payment_friction", "is_mpesa",
   "high_value_mtm", "new_no_autopay", "support_late_combo",
   "premium_low_usage", "bundled_loyal",
   "service_encoded", "pay_bank", "pay_credit", "pay_debit", "pay_cash",
   "loc_suburban", "loc_rural",
   "num_services", "charges_anomaly_flag"]

/-- The preprocessing chain of `predict_churn` on a batch:
standardize, impute, detect anomalies, derive features. -/
def predict_churn_features (log : ℚ → ℚ) (stats : FeStats)
    (df : List CustomerData) : List FeatRow :=
  let df_clean := standardize_categoricals df
  let df_clean2 := handle_missing_values stats df_clean
  let df_clean3 := detect_anomalies df_clean2
  engineer_features log stats df_clean3

/-- The same chain applied to one record by itself. -/
def predict_churn_features_single (log : ℚ → ℚ) (stats : FeStats)
    (r : CustomerData) : FeatRow :=
  engineer_record log stats (detect_record (impute_record stats (standardize_record r)))

/-- The `HIGH_RISK_THRESHOLD` constant (0.50). -/
def HIGH_RISK_THRESHOLD : ℚ := 0.50

/-- The `MEDIUM_RISK_THRESHOLD` constant (0.35). -/
def MEDIUM_RISK_THRESHOLD : ℚ := 0.35

/-- The risk classifier `get_risk_level`: tier label and display color. -/
def get_risk_level (proba : ℚ) : String × String :=
  if proba > HIGH_RISK_THRESHOLD then ("HIGH", "#FF4B4B")
  else if proba > MEDIUM_RISK_THRESHOLD then ("MEDIUM", "#FFA500")
  else ("LOW", "#00CC66")

/-- A recommended action: priority, action text, impact text. -/
structure RecommendedAction where
  priority : String
  action : String
  impact : String
deriving DecidableEq

/-- Urgent retention-call recommendation. -/
def rec_urgent : RecommendedAction :=
  ⟨"URGENT", "Schedule immediate retention call",
   "Direct intervention for high-risk customer"⟩

/-- Contract-discount recommendation. -/
def rec_contract : RecommendedAction :=
  ⟨"HIGH", "Offer 12-month contract with 15% discount",
   "Reduces churn odds by ~75%"⟩

/-- Onboarding-specialist recommendation. -/
def rec_onboarding : RecommendedAction :=
  ⟨"HIGH", "Assign dedicated onboarding specialist",
   "New customers have +25% churn risk"⟩

/-- Autopay-incentive recommendation. -/
def rec_autopay : RecommendedAction :=
  ⟨"MEDIUM", "Enable autopay with KES 500 credit incentive",
   "Reduces churn odds by ~8%"⟩

/-- Support-escalation recommendation. -/
def rec_support : RecommendedAction :=
  ⟨"HIGH", "Escalate to customer success manager",
   "Heavy support users have +15% churn risk"⟩

/-- VIP-retention recommendation. -/
def rec_vip : RecommendedAction :=
  ⟨"HIGH", "VIP retention call + loyalty reward program",
   "High-value customers need special attention"⟩

/-- Payment-plan recommendation. -/
def rec_payment_plan : RecommendedAction :=
  ⟨"MEDIUM", "Offer flexible payment plan",
   "Financial stress increases churn risk"⟩

/-- `get_recommendations(customer_data, churn_proba)`: the ordered rule
chain over the customer dict, with the source's `.get` defaults.  Note
the dict it receives in `main` is the raw CSV row, not the cleaned one. -/
def get_recommendations (c : CustomerData) (churn_proba : ℚ) :
    List RecommendedAction :=
  (if churn_proba > HIGH_RISK_THRESHOLD then [rec_urgent] else []) ++
  (if c.contract_type = some "Month-to-Month" then [rec_contract] else []) ++
  (if c.tenure_months.getD 12 < 6 then [rec_onboarding] else []) ++
  (if c.autopay_enabled = some "No" then [rec_autopay] else []) ++
  (if c.support_calls.getD 0 > 3 then [rec_support] else []) ++
  (if c.monthly_charges.getD 0 > 6200 then [rec_vip] else []) ++
  (if c.late_payment_count.getD 0 > 2 then [rec_payment_plan] else [])

/-- A driver fact as the source represents it: (label, priority, impact). -/
def drv_mtm : String × String × String :=
  ("Month-to-Month Contract", "HIGH", "+75% churn odds")

/-- New-customer driver fact. -/
def drv_new : String × String × String :=
  ("New Customer (<6 months)", "HIGH", "+25% churn odds")

/-- High-value driver fact. -/
def drv_high_value : String × String × String :=
  ("High-Value Customer", "MEDIUM", "+27% churn odds")

/-- Heavy-support driver fact. -/
def drv_support : String × String × String :=
  ("High Support Usage", "MEDIUM", "+14% churn odds")

/-- Late-payments driver fact. -/
def drv_late : String × String × String :=
  ("Late Payments", "MEDIUM", "+16% churn odds")

/-- No-autopay driver fact. -/
def drv_no_autopay : String × String × String :=
  ("No Autopay", "LOW", "+8% churn odds")

/-- Established-customer (positive) driver fact. -/
def drv_established : String × String × String :=
  ("Established Customer", "POSITIVE", "-8% churn odds")

/-- Referrals (positive) driver fact. -/
def drv_referral : String × String × String :=
  ("Has Made Referrals", "POSITIVE", "-15% churn odds")

/-- Condition of driver rule 1 (Month-to-Month contract). -/
def drv_cond_mtm (c : CustomerData) : Bool :=
  decide (c.contract_type = some "Month-to-Month")

/-- Condition of driver rule 2 (new customer; the dict default is 12). -/
def drv_cond_new (c : CustomerData) : Bool :=
  decide (c.tenure_months.getD 12 < 6)

/-- Condition of driver rule 3 (high value). -/
def drv_cond_high_value (c : CustomerData) : Bool :=
  decide (c.monthly_charges.getD 0 > 6200)

/-- Condition of driver rule 4 (heavy support). -/
def drv_cond_support (c : CustomerData) : Bool :=
  decide (c.support_calls.getD 0 > 3)

/-- Condition of driver rule 5 (late payments). -/
def drv_cond_late (c : CustomerData) : Bool :=
  decide (c.late_payment_count.getD 0 > 0)

/-- Condition of driver rule 6 (no autopay). -/
def drv_cond_no_autopay (c : CustomerData) : Bool :=
  decide (c.autopay_enabled = some "No")

/-- Condition of driver rule 7 (established; the dict default is 0). -/
def drv_cond_established (c : CustomerData) : Bool :=
  decide (c.tenure_months.getD 0 > 24)

/-- Condition of driver rule 8 (has referrals). -/
def drv_cond_referral (c : CustomerData) : Bool :=
  decide (c.referral_count.getD 0 > 0)

/-- `get_top_drivers(customer_data, ...)`: the eight appends in source
order, truncated to the first six.  The `df_features` and `coef_df`
parameters of the source function are unused there and omitted here.
In `main` this also receives the raw CSV row dict. -/
def get_top_drivers (c : CustomerData) : List (String × String × String) :=
  ((if drv_cond_mtm c then [drv_mtm] else []) ++
   (if drv_cond_new c then [drv_new] else []) ++
   (if drv_cond_high_value c then [drv_high_value] else []) ++
   (if drv_cond_support c then [drv_support] else []) ++
   (if drv_cond_late c then [drv_late] else []) ++
   (if drv_cond_no_autopay c then [drv_no_autopay] else []) ++
   (if drv_cond_established c then [drv_established] else []) ++
   (if drv_cond_referral c then [drv_referral] else [])).take 6

/-- The driver rule table as the spec describes it: the fixed evaluation
order, one (predicate, fact) pair per rule. -/
def driver_rules : List ((CustomerData → Bool) × (String × String × String)) :=
  [(drv_cond_mtm, drv_mtm), (drv_cond_new, drv_new),
   (drv_cond_high_value, drv_high_value), (drv_cond_support, drv_support),
   (drv_cond_late, drv_late), (drv_cond_no_autopay, drv_no_autopay),
   (drv_cond_established, drv_established), (drv_cond_referral, drv_referral)]

/-- Modelled from the spec: the ordered list of facts of all satisfied
driver rules (one DriverFact per satisfied rule, in evaluation order). -/
def driver_matches (c : CustomerData) : List (String × String × String) :=
  (driver_rules.filter (fun pr => pr.1 c)).map Prod.snd

/-- Concrete fitted statistics for counterexamples and witnesses: the
Standard and Premium segments have distinct medians. -/
def cex_stats : FeStats :=
  { service_type_median_charges := [("Standard", 4000), ("Premium", 9000)],
    service_type_median_usage := [("Standard", 70), ("Premium", 100)],
    monthly_charges_p75 := 6000,
    data_usage_p25 := 20 }

/-- A Premium-segment record whose monthly charges are missing and whose
other cells are all present. -/
def cex_premium_rec : CustomerData :=
  { customer_id := some "X1", tenure_months := some 10,
    contract_type := some "One Year", service_type := some "Premium",
    monthly_charges := none, total_charges := some 50000,
    payment_method := some "M-Pesa", location_type := some "Urban",
    num_services := some 2, data_usage_gb := some 80,
    support_calls := some 1, autopay_enabled := some "Yes",
    late_payment_count := some 0, referral_count := some 1 }

/-- A record with monthly charges and data usage both missing. -/
def cex_missing_rec : CustomerData :=
  { customer_id := some "X2", tenure_months := some 4,
    contract_type := some "Two Year", service_type := some "Premium",
    monthly_charges := none, total_charges := some 20000,
    payment_method := some "Cash", location_type := some "Rural",
    num_services := some 1, data_usage_gb := none,
    support_calls := some 0, autopay_enabled := some "No",
    late_payment_count := some 0, referral_count := some 0 }

/-- A record with total_charges and tenure_months both missing. -/
def cex_tt_rec : CustomerData :=
  { customer_id := some "X3", tenure_months := none,
    contract_type := some "Month-to-Month", service_type := some "Standard",
    monthly_charges := some 100, total_charges := none,
    payment_method := some "Cash", location_type := some "Rural",
    num_services := some 1, data_usage_gb := some 10,
    support_calls := some 0, autopay_enabled := some "No",
    late_payment_count := some 0, referral_count := some 0 }

/-- A Basic-segment record; the Basic segment is absent from the
concrete fitted statistics above. -/
def cex_basic_rec : CustomerData :=
  { customer_id := some "X4", tenure_months := some 8,
    contract_type := some "Month-to-Month", service_type := some "Basic",
    monthly_charges := some 3000, total_charges := some 24000,
    payment_method := some "M-Pesa", location_type := some "Urban",
    num_services := some 2, data_usage_gb := some 50,
    support_calls := some 1, autopay_enabled := some "Yes",
    late_payment_count := some 0, referral_count := some 0 }

/-- A record satisfying seven of the eight driver rules (all but the
established-customer rule, which conflicts with the new-customer rule). -/
def cex_seven_rec : CustomerData :=
  { customer_id := some "X5", tenure_months := some 3,
    contract_type := some "Month-to-Month", service_type := some "Standard",
    monthly_charges := some 7000, total_charges := some 21000,
    payment_method := some "Cash", location_type := some "Urban",
    num_services := some 1, data_usage_gb := some 30,
    support_calls := some 5, autopay_enabled := some "No",
    late_payment_count := some 2, referral_count := some 1 }

/-- The end-to-end scenario record of the spec: tenure 3 months, raw
contract text "Month to Month", no autopay, no support calls, no late
payments, monthly charges 3000; the remaining cells are not given. -/
def c4_scenario_rec : CustomerData :=
  { customer_id := none, tenure_months := some 3,
    contract_type := some "Month to Month", service_type := none,
    monthly_charges := some 3000, total_charges := none,
    payment_method := none, location_type := none,
    num_services := none, data_usage_gb := none,
    support_calls := some 0, autopay_enabled := some "No",
    late_payment_count := some 0, referral_count := none }

/-! Helper lemmas. -/

/-- A value returned by an association-list lookup is among the stored values. -/
theorem lookup_mem_snd {β : Type} (k : String) (v : β) :
    ∀ l : List (String × β), l.lookup k = some v → v ∈ l.map Prod.snd := by
  intro l
  induction l with
  | nil => intro h; simp [List.lookup] at h
  | cons p tl ih =>
    intro h
    obtain ⟨pk, pv⟩ := p
    rw [List.lookup] at h
    cases hb : (k == pk) with
    | true =>
      rw [hb] at h
      simp only [Option.some.injEq] at h
      simp [h.symm]
    | false =>
      rw [hb] at h
      simp only [List.map_cons, List.mem_cons]
      exact Or.inr (ih h)

/-- Mapping a function that fixes every element is the identity. -/
theorem map_of_all_fix {α : Type} (f : α → α) :
    ∀ l : List α, (∀ a ∈ l, f a = a) → l.map f = l := by
  intro l h
  induction l with
  | nil => rfl
  | cons a tl ih =>
    simp only [List.map_cons]
    rw [h a (by simp), ih (fun b hb => h b (by simp [hb]))]

/-- An `isna().any()`-guarded columnwise fill equals the unguarded fill
when the fill fixes every non-missing row. -/
theorem any_guard_map {α : Type} (p : α → Bool) (f : α → α)
    (hf : ∀ a, p a = false → f a = a) (l : List α) :
    (if l.any p then l.map f else l) = l.map f := by
  split
  · rfl
  · next h =>
    refine (map_of_all_fix f l ?_).symm
    intro a ha
    apply hf
    by_contra hcon
    exact h (List.any_eq_true.mpr ⟨a, ha, by simpa using hcon⟩)

/-- Elementwise no-op of the monthly-charges fill on a present cell. -/
theorem fill_monthly_noop (stats : FeStats) (a : CustomerData)
    (h : a.monthly_charges.isNone = false) : fill_monthly_record stats a = a := by
  cases hm : a.monthly_charges with
  | none => rw [hm] at h; simp at h
  | some v => simp [fill_monthly_record, hm]

/-- Elementwise no-op of the usage fill on a present cell. -/
theorem fill_usage_noop (stats : FeStats) (a : CustomerData)
    (h : a.data_usage_gb.isNone = false) : fill_usage_record stats a = a := by
  cases hm : a.data_usage_gb with
  | none => rw [hm] at h; simp at h
  | some v => simp [fill_usage_record, hm]

/-- Elementwise no-op of the total-charges fill on a present cell. -/
theorem fill_total_noop (a : CustomerData)
    (h : a.total_charges.isNone = false) : fill_total_record a = a := by
  cases hm : a.total_charges with
  | none => rw [hm] at h; simp at h
  | some v => simp [fill_total_record, hm]

/-- The batch imputer is the elementwise imputer mapped over the rows. -/
theorem handle_missing_values_eq_map (stats : FeStats) (df : List CustomerData) :
    handle_missing_values stats df = df.map (impute_record stats) := by
  simp only [handle_missing_values]
  rw [any_guard_map _ _ (fill_monthly_noop stats),
      any_guard_map _ _ (fill_usage_noop stats),
      any_guard_map _ _ fill_total_noop,
      List.map_map, List.map_map, List.map_map, List.map_map]
  rfl

/-- Monthly charges after per-record imputation. -/
theorem impute_monthly (stats : FeStats) (r : CustomerData) :
    (impute_record stats r).monthly_charges
      = some (r.monthly_charges.getD (standard_median_charges stats)) := by
  cases hm : r.monthly_charges <;> cases hu : r.data_usage_gb <;>
    cases ht : r.total_charges <;>
    simp [impute_record, fill_monthly_record, fill_usage_record,
      fill_total_record, fill_zeros_record, clip_record, hm, hu, ht]

/-- Data usage after per-record imputation. -/
theorem impute_usage (stats : FeStats) (r : CustomerData) :
    (impute_record stats r).data_usage_gb
      = some (r.data_usage_gb.getD (standard_median_usage stats)) := by
  cases hm : r.monthly_charges <;> cases hu : r.data_usage_gb <;>
    cases ht : r.total_charges <;>
    simp [impute_record, fill_monthly_record, fill_usage_record,
      fill_total_record, fill_zeros_record, clip_record, hm, hu, ht]

/-- Tenure after per-record imputation: zero-filled then clipped. -/
theorem impute_tenure (stats : FeStats) (r : CustomerData) :
    (impute_record stats r).tenure_months
      = some (max (r.tenure_months.getD 0) 0) := by
  cases hm : r.monthly_charges <;> cases hu : r.data_usage_gb <;>
    cases ht : r.total_charges <;>
    simp [impute_record, fill_monthly_record, fill_usage_record,
      fill_total_record, fill_zeros_record, clip_record, hm, hu, ht]

/-- Support calls after per-record imputation: zero-filled then clipped. -/
theorem impute_support (stats : FeStats) (r : CustomerData) :
    (impute_record stats r).support_calls
      = some (max (r.support_calls.getD 0) 0) := by
  cases hm : r.monthly_charges <;> cases hu : r.data_usage_gb <;>
    cases ht : r.total_charges <;>
    simp [impute_record, fill_monthly_record, fill_usage_record,
      fill_total_record, fill_zeros_record, clip_record, hm, hu, ht]

/-- Number of services after per-record imputation. -/
theorem impute_num_services (stats : FeStats) (r : CustomerData) :
    (impute_record stats r).num_services = some (r.num_services.getD 0) := by
  cases hm : r.monthly_charges <;> cases hu : r.data_usage_gb <;>
    cases ht : r.total_charges <;>
    simp [impute_record, fill_monthly_record, fill_usage_record,
      fill_total_record, fill_zeros_record, clip_record, hm, hu, ht]

/-- Late-payment count after per-record imputation. -/
theorem impute_late (stats : FeStats) (r : CustomerData) :
    (impute_record stats r).late_payment_count
      = some (r.late_payment_count.getD 0) := by
  cases hm : r.monthly_charges <;> cases hu : r.data_usage_gb <;>
    cases ht : r.total_charges <;>
    simp [impute_record, fill_monthly_record, fill_usage_record,
      fill_total_record, fill_zeros_record, clip_record, hm, hu, ht]

/-- Referral count after per-record imputation. -/
theorem impute_referral (stats : FeStats) (r : CustomerData) :
    (impute_record stats r).referral_count
      = some (r.referral_count.getD 0) := by
  cases hm : r.monthly_charges <;> cases hu : r.data_usage_gb <;>
    cases ht : r.total_charges <;>
    simp [impute_record, fill_monthly_record, fill_usage_record,
      fill_total_record, fill_zeros_record, clip_record, hm, hu, ht]

/-- Total charges after per-record imputation, present case: untouched. -/
theorem impute_total_some (stats : FeStats) (r : CustomerData) (t : ℚ)
    (h : r.total_charges = some t) :
    (impute_record stats r).total_charges = some t := by
  cases hm : r.monthly_charges <;> cases hu : r.data_usage_gb <;>
    simp [impute_record, fill_monthly_record, fill_usage_record,
      fill_total_record, fill_zeros_record, clip_record, hm, hu, h]

/-- Total charges after per-record imputation, missing case: the fill
value is monthly charges (already filled) times clipped tenure, and is
itself missing exactly when tenure is missing. -/
theorem impute_total_none (stats : FeStats) (r : CustomerData)
    (h : r.total_charges = none) :
    (impute_record stats r).total_charges
      = r.tenure_months.map
          (fun t => r.monthly_charges.getD (standard_median_charges stats) * max t 1) := by
  cases hm : r.monthly_charges <;> cases hu : r.data_usage_gb <;>
    cases htn : r.tenure_months <;>
    simp [impute_record, fill_monthly_record, fill_usage_record,
      fill_total_record, fill_zeros_record, clip_record, hm, hu, h, htn]

attribute [ext] CustomerData

/-- The imputer leaves the identifier and the categorical columns
unchanged. -/
theorem impute_other_fields (stats : FeStats) (r : CustomerData) :
    (impute_record stats r).customer_id = r.customer_id ∧
    (impute_record stats r).contract_type = r.contract_type ∧
    (impute_record stats r).service_type = r.service_type ∧
    (impute_record stats r).payment_method = r.payment_method ∧
    (impute_record stats r).location_type = r.location_type ∧
    (impute_record stats r).autopay_enabled = r.autopay_enabled := by
  cases hm : r.monthly_charges <;> cases hu : r.data_usage_gb <;>
    cases ht : r.total_charges <;>
    simp [impute_record, fill_monthly_record, fill_usage_record,
      fill_total_record, fill_zeros_record, clip_record, hm, hu, ht]

/-- Applying the per-record imputer twice changes nothing, provided
total charges and tenure are not both missing. -/
theorem impute_record_idem (stats : FeStats) (r : CustomerData)
    (h : ¬(r.total_charges = none ∧ r.tenure_months = none)) :
    impute_record stats (impute_record stats r) = impute_record stats r := by
  obtain ⟨ho1, ho2, ho3, ho4, ho5, ho6⟩ := impute_other_fields stats (impute_record stats r)
  apply CustomerData.ext
  · exact ho1
  · simp [impute_tenure, max_assoc]
  · exact ho2
  · exact ho3
  · simp [impute_monthly]
  · rcases ht : r.total_charges with _ | t
    · rcases htn : r.tenure_months with _ | tn
      · exact absurd ⟨ht, htn⟩ h
      · have h1 : (impute_record stats r).total_charges
            = some (r.monthly_charges.getD (standard_median_charges stats) * max tn 1) := by
          rw [impute_total_none stats r ht, htn]
          rfl
        rw [impute_total_some stats _ _ h1, h1]
    · rw [impute_total_some stats _ t (impute_total_some stats r t ht),
          impute_total_some stats r t ht]
  · exact ho4
  · exact ho5
  · simp [impute_num_services]
  · simp [impute_usage]
  · simp [impute_support, max_assoc]
  · exact ho6
  · simp [impute_late]
  · simp [impute_referral]

/-- The categorical standardizer leaves every numeric column unchanged. -/
theorem standardize_numeric_fields (r : CustomerData) :
    (standardize_record r).monthly_charges = r.monthly_charges ∧
    (standardize_record r).data_usage_gb = r.data_usage_gb ∧
    (standardize_record r).total_charges = r.total_charges ∧
    (standardize_record r).tenure_months = r.tenure_months ∧
    (standardize_record r).num_services = r.num_services ∧
    (standardize_record r).support_calls = r.support_calls ∧
    (standardize_record r).late_payment_count = r.late_payment_count ∧
    (standardize_record r).referral_count = r.referral_count := by
  simp [standardize_record]

/-- Contract normalization lands in the canonical enumeration. -/
theorem contract_norm_mem (s : String) : contract_norm s ∈ contract_canon := by
  unfold contract_norm
  cases hl : contract_map.lookup (str_strip s) with
  | none => decide
  | some v =>
    have hv := lookup_mem_snd (str_strip s) v contract_map hl
    have hall : ∀ x ∈ contract_map.map Prod.snd, x ∈ contract_canon := by decide
    simpa using hall v hv

/-- Contract normalization is idempotent. -/
theorem contract_norm_idem (s : String) :
    contract_norm (contract_norm s) = contract_norm s := by
  have h := contract_norm_mem s
  simp only [contract_canon, List.mem_cons, List.mem_singleton,
    List.not_mem_nil, or_false] at h
  rcases h with h | h | h <;> rw [h] <;> decide

/-- Payment normalization lands in the canonical enumeration. -/
theorem payment_norm_mem (s : String) : payment_norm s ∈ payment_canon := by
  unfold payment_norm
  cases hl : payment_map.lookup (str_strip s) with
  | none => decide
  | some v =>
    have hv := lookup_mem_snd (str_strip s) v payment_map hl
    have hall : ∀ x ∈ payment_map.map Prod.snd, x ∈ payment_canon := by decide
    simpa using hall v hv

/-- Payment normalization is idempotent. -/
theorem payment_norm_idem (s : String) :
    payment_norm (payment_norm s) = payment_norm s := by
  have h := payment_norm_mem s
  simp only [payment_canon, List.mem_cons, List.mem_singleton,
    List.not_mem_nil, or_false] at h
  rcases h with h | h | h | h | h <;> rw [h] <;> decide

/-- Autopay normalization lands in the canonical enumeration. -/
theorem autopay_norm_mem (s : String) : autopay_norm s ∈ autopay_canon := by
  unfold autopay_norm
  cases hl : autopay_map.lookup (str_strip s) with
  | none => decide
  | some v =>
    have hv := lookup_mem_snd (str_strip s) v autopay_map hl
    have hall : ∀ x ∈ autopay_map.map Prod.snd, x ∈ autopay_canon := by decide
    simpa using hall v hv

/-- Autopay normalization is idempotent. -/
theorem autopay_norm_idem (s : String) :
    autopay_norm (autopay_norm s) = autopay_norm s := by
  have h := autopay_norm_mem s
  simp only [autopay_canon, List.mem_cons, List.mem_singleton,
    List.not_mem_nil, or_false] at h
  rcases h with h | h <;> rw [h] <;> decide

/-- Service normalization lands in the valid list. -/
theorem service_norm_mem (s : String) : service_norm s ∈ valid_services := by
  unfold service_norm
  split
  · assumption
  · decide

/-- Service normalization is idempotent. -/
theorem service_norm_idem (s : String) :
    service_norm (service_norm s) = service_norm s := by
  have h := service_norm_mem s
  unfold service_norm at h ⊢
  rw [if_pos h]

/-- Location normalization lands in the valid list. -/
theorem location_norm_mem (s : String) : location_norm s ∈ valid_locations := by
  unfold location_norm
  split
  · assumption
  · decide

/-- Location normalization is idempotent. -/
theorem location_norm_idem (s : String) :
    location_norm (location_norm s) = location_norm s := by
  have h := location_norm_mem s
  unfold location_norm at h ⊢
  rw [if_pos h]

/-- Idempotence through the missing-cell wrapper, contract field. -/
theorem contract_norm_opt_idem (o : Option String) :
    contract_norm (opt_norm contract_norm "Month-to-Month" o)
      = opt_norm contract_norm "Month-to-Month" o := by
  cases o with
  | none => decide
  | some s => exact contract_norm_idem s

/-- Idempotence through the missing-cell wrapper, payment field. -/
theorem payment_norm_opt_idem (o : Option String) :
    payment_norm (opt_norm payment_norm "M-Pesa" o)
      = opt_norm payment_norm "M-Pesa" o := by
  cases o with
  | none => decide
  | some s => exact payment_norm_idem s

/-- Idempotence through the missing-cell wrapper, autopay field. -/
theorem autopay_norm_opt_idem (o : Option String) :
    autopay_norm (opt_norm autopay_norm "No" o)
      = opt_norm autopay_norm "No" o := by
  cases o with
  | none => decide
  | some s => exact autopay_norm_idem s

/-- Idempotence through the missing-cell wrapper, service field. -/
theorem service_norm_opt_idem (o : Option String) :
    service_norm (opt_norm service_norm "Standard" o)
      = opt_norm service_norm "Standard" o := by
  cases o with
  | none => decide
  | some s => exact service_norm_idem s

/-- Idempotence through the missing-cell wrapper, location field. -/
theorem location_norm_opt_idem (o : Option String) :
    location_norm (opt_norm location_norm "Urban" o)
      = opt_norm location_norm "Urban" o := by
  cases o with
  | none => decide
  | some s => exact location_norm_idem s

/-- The record-level standardizer is idempotent. -/
theorem standardize_record_idem (r : CustomerData) :
    standardize_record (standardize_record r) = standardize_record r := by
  apply CustomerData.ext
  · rfl
  · rfl
  · exact congrArg some (contract_norm_opt_idem r.contract_type)
  · exact congrArg some (service_norm_opt_idem r.service_type)
  · rfl
  · rfl
  · exact congrArg some (payment_norm_opt_idem r.payment_method)
  · exact congrArg some (location_norm_opt_idem r.location_type)
  · rfl
  · rfl
  · rfl
  · exact congrArg some (autopay_norm_opt_idem r.autopay_enabled)
  · rfl
  · rfl

/-- The whole preprocessing chain on a batch is the per-record chain
mapped over the rows. -/
theorem predict_features_map (log : ℚ → ℚ) (stats : FeStats)
    (l : List CustomerData) :
    predict_churn_features log stats l
      = l.map (predict_churn_features_single log stats) := by
  simp only [predict_churn_features, standardize_categoricals,
    detect_anomalies, engineer_features]
  rw [handle_missing_values_eq_map]
  simp only [List.map_map]
  rfl

/-! Claim theorems. -/

/-- C2 counterexample: the tree feature projection has 35 named
features, not 34 as claimed. -/
theorem c2_counterexample :
    XGBOOST_FEATURE_SET.length = 35 ∧ XGBOOST_FEATURE_SET.length ≠ 34 := by
  decide

/-- C2 (amended): the linear projection has exactly 32 named features,
the tree projection exactly 35, and the tree projection's extra members
relative to the linear one are exactly tenure_bin, monthly_charges_log
and late_payment_flag. -/
theorem c2_feature_set_sizes :
    LR_FEATURE_SET.length = 32 ∧ XGBOOST_FEATURE_SET.length = 35 ∧
    (∀ f ∈ LR_FEATURE_SET, f ∈ XGBOOST_FEATURE_SET) ∧
    (∀ f ∈ XGBOOST_FEATURE_SET, f ∈ LR_FEATURE_SET ∨
       f ∈ ["tenure_bin", "monthly_charges_log", "late_payment_flag"]) ∧
    (∀ f ∈ ["tenure_bin", "monthly_charges_log", "late_payment_flag"],
       f ∈ XGBOOST_FEATURE_SET ∧ f ∉ LR_FEATURE_SET) := by
  decide

/-- C3: the risk classifier returns HIGH iff probability exceeds 0.50,
MEDIUM iff it is in (0.35, 0.50], LOW otherwise, and in particular
0.50 is MEDIUM, 0.35 is LOW, 0.51 is HIGH. -/
theorem c3_risk_level_thresholds (p : ℚ) :
    ((get_risk_level p).1 = "HIGH" ↔ 0.50 < p) ∧
    ((get_risk_level p).1 = "MEDIUM" ↔ 0.35 < p ∧ p ≤ 0.50) ∧
    ((get_risk_level p).1 = "LOW" ↔ p ≤ 0.35) ∧
    (get_risk_level 0.50).1 = "MEDIUM" ∧
    (get_risk_level 0.35).1 = "LOW" ∧
    (get_risk_level 0.51).1 = "HIGH" := by
  refine ⟨⟨?_, ?_⟩, ⟨?_, ?_⟩, ⟨?_, ?_⟩, ?_, ?_, ?_⟩
  · intro h
    unfold get_risk_level HIGH_RISK_THRESHOLD MEDIUM_RISK_THRESHOLD at h
    split_ifs at h with h1 h2
    · exact h1
    · exact absurd h (by decide)
    · exact absurd h (by decide)
  · intro h
    unfold get_risk_level HIGH_RISK_THRESHOLD MEDIUM_RISK_THRESHOLD
    rw [if_pos h]
  · intro h
    unfold get_risk_level HIGH_RISK_THRESHOLD MEDIUM_RISK_THRESHOLD at h
    split_ifs at h with h1 h2
    · exact absurd h (by decide)
    · exact ⟨h2, le_of_not_lt h1⟩
    · exact absurd h (by decide)
  · intro h
    unfold get_risk_level HIGH_RISK_THRESHOLD MEDIUM_RISK_THRESHOLD
    rw [if_neg (not_lt.mpr h.2), if_pos h.1]
  · intro h
    unfold get_risk_level HIGH_RISK_THRESHOLD MEDIUM_RISK_THRESHOLD at h
    split_ifs at h with h1 h2
    · exact absurd h (by decide)
    · exact absurd h (by decide)
    · exact le_of_not_lt h2
  · intro h
    unfold get_risk_level HIGH_RISK_THRESHOLD MEDIUM_RISK_THRESHOLD
    rw [if_neg (not_lt.mpr (h.trans (by norm_num))), if_neg (not_lt.mpr h)]
  · unfold get_risk_level HIGH_RISK_THRESHOLD MEDIUM_RISK_THRESHOLD
    rw [if_neg (by norm_num), if_pos (by norm_num)]
  · unfold get_risk_level HIGH_RISK_THRESHOLD MEDIUM_RISK_THRESHOLD
    rw [if_neg (by norm_num), if_neg (by norm_num)]
  · unfold get_risk_level HIGH_RISK_THRESHOLD MEDIUM_RISK_THRESHOLD
    rw [if_pos (by norm_num)]

/-- C3 witness: the classifier at the three boundary probabilities. -/
theorem c3_witness :
    (get_risk_level 0.50).1 = "MEDIUM" ∧ (get_risk_level 0.35).1 = "LOW" ∧
    (get_risk_level 0.51).1 = "HIGH" :=
  ⟨(c3_risk_level_thresholds 0.50).2.2.2.1,
   (c3_risk_level_thresholds 0.35).2.2.2.2.1,
   (c3_risk_level_thresholds 0.51).2.2.2.2.2⟩

/-- C1 counterexample: a Premium-segment record with missing monthly
charges is filled with 4000 (the Standard segment's fitted median), not
with 9000 (the fitted median of its own Premium segment). -/
theorem c1_counterexample :
    cex_premium_rec.monthly_charges = none ∧
    cex_premium_rec.service_type = some "Premium" ∧
    cex_stats.service_type_median_charges.lookup "Premium" = some 9000 ∧
    (handle_missing_values cex_stats [cex_premium_rec]).map
      (fun x => x.monthly_charges) = [some 4000] ∧
    (handle_missing_values cex_stats [cex_premium_rec]).map
      (fun x => x.monthly_charges) ≠ [some 9000] := by
  refine ⟨rfl, rfl, rfl, ?_, ?_⟩
  · rw [handle_missing_values_eq_map]
    simp only [List.map_cons, List.map_nil, impute_monthly]
    rfl
  · rw [handle_missing_values_eq_map]
    simp only [List.map_cons, List.map_nil, impute_monthly]
    intro h
    simp only [List.cons.injEq, Option.some.injEq, and_true] at h
    have : (4000 : ℚ) = 9000 := by
      have h' : ((cex_premium_rec.monthly_charges.getD
          (standard_median_charges cex_stats))) = 4000 := rfl
      rw [h'] at h
      exact h
    norm_num at this

/-- C1 (amended): a missing monthly_charges is filled with the fitted
median of the Standard segment (default 5000 when Standard is unseen)
regardless of the record's own service_type, and a missing data_usage_gb
with the Standard segment's median usage (default 70). -/
theorem c1_fills_standard_median (stats : FeStats) (r : CustomerData) :
    (r.monthly_charges = none →
      (handle_missing_values stats [r]).map (fun x => x.monthly_charges)
        = [some (standard_median_charges stats)]) ∧
    (r.data_usage_gb = none →
      (handle_missing_values stats [r]).map (fun x => x.data_usage_gb)
        = [some (standard_median_usage stats)]) := by
  constructor
  · intro h
    rw [handle_missing_values_eq_map]
    simp [impute_monthly, h]
  · intro h
    rw [handle_missing_values_eq_map]
    simp [impute_usage, h]

/-- C1 witness: a record missing both monthly charges and usage gets
the Standard-segment medians 4000 and 70 of the concrete statistics. -/
theorem c1_witness :
    (handle_missing_values cex_stats [cex_missing_rec]).map
      (fun x => x.monthly_charges) = [some 4000] ∧
    (handle_missing_values cex_stats [cex_missing_rec]).map
      (fun x => x.data_usage_gb) = [some 70] :=
  ⟨((c1_fills_standard_median cex_stats cex_missing_rec).1 rfl).trans rfl,
   ((c1_fills_standard_median cex_stats cex_missing_rec).2 rfl).trans rfl⟩

/-- C5 counterexample: normalize-then-impute leaves total_charges
missing when total_charges and tenure_months were both missing. -/
theorem c5_counterexample :
    cex_tt_rec.total_charges = none ∧ cex_tt_rec.tenure_months = none ∧
    (handle_missing_values cex_stats (standardize_categoricals [cex_tt_rec])).map
      (fun x => x.total_charges) = [none] := by
  refine ⟨rfl, rfl, ?_⟩
  rw [standardize_categoricals, handle_missing_values_eq_map]
  simp only [List.map_cons, List.map_nil]
  rw [impute_total_none cex_stats (standardize_record cex_tt_rec) rfl]
  rfl

/-- C5 (amended): after the normalizer and the imputer every numeric
column except total_charges is present; total_charges is present unless
both total_charges and tenure_months were missing in the input. -/
theorem c5_imputation_coverage (stats : FeStats) (r : CustomerData) :
    ∃ r', handle_missing_values stats (standardize_categoricals [r]) = [r'] ∧
      r'.monthly_charges.isSome ∧ r'.data_usage_gb.isSome ∧
      r'.tenure_months.isSome ∧ r'.num_services.isSome ∧
      r'.support_calls.isSome ∧ r'.late_payment_count.isSome ∧
      r'.referral_count.isSome ∧
      (r'.total_charges = none ↔
        r.total_charges = none ∧ r.tenure_months = none) := by
  refine ⟨impute_record stats (standardize_record r), ?_, ?_, ?_, ?_, ?_, ?_, ?_, ?_, ?_⟩
  · rw [standardize_categoricals, handle_missing_values_eq_map]
    rfl
  · rw [impute_monthly]; rfl
  · rw [impute_usage]; rfl
  · rw [impute_tenure]; rfl
  · rw [impute_num_services]; rfl
  · rw [impute_support]; rfl
  · rw [impute_late]; rfl
  · rw [impute_referral]; rfl
  · obtain ⟨hmc, hdu, htc, htm, hns, hsc, hlp, hrc⟩ :=
      standardize_numeric_fields r
    cases ht : r.total_charges with
    | some t =>
      rw [impute_total_some stats _ t (htc.trans ht)]
      simp
    | none =>
      rw [impute_total_none stats _ (htc.trans ht)]
      rw [htm]
      cases htn : r.tenure_months <;> simp

/-- C5 witness: the coverage theorem instantiated at the concrete
two-fields-missing record. -/
theorem c5_witness :
    ∃ r', handle_missing_values cex_stats (standardize_categoricals [cex_tt_rec])
        = [r'] ∧ r'.monthly_charges.isSome ∧ r'.total_charges = none := by
  obtain ⟨r', h1, h2, _, _, _, _, _, _, h9⟩ :=
    c5_imputation_coverage cex_stats cex_tt_rec
  exact ⟨r', h1, h2, h9.mpr ⟨rfl, rfl⟩⟩

/-- C7 counterexample: on a record missing both total_charges and
tenure_months, a second application of the imputer changes its own
output (the first pass zero-fills tenure but leaves total_charges
missing; the second pass then fills total_charges). -/
theorem c7_counterexample :
    handle_missing_values cex_stats (handle_missing_values cex_stats [cex_tt_rec])
      ≠ handle_missing_values cex_stats [cex_tt_rec] := by
  intro heq
  have h1 : (handle_missing_values cex_stats [cex_tt_rec]).map
      (fun x => x.total_charges) = [none] := by
    rw [handle_missing_values_eq_map]
    simp only [List.map_cons, List.map_nil]
    rw [impute_total_none cex_stats cex_tt_rec rfl]
    rfl
  have h2 : (handle_missing_values cex_stats
      (handle_missing_values cex_stats [cex_tt_rec])).map
      (fun x => x.total_charges)
      = [some ((100 : ℚ) * max (max 0 0) 1)] := by
    rw [handle_missing_values_eq_map, handle_missing_values_eq_map]
    simp only [List.map_cons, List.map_nil]
    have htot : (impute_record cex_stats cex_tt_rec).total_charges = none := by
      rw [impute_total_none cex_stats cex_tt_rec rfl]
      rfl
    rw [impute_total_none cex_stats _ htot, impute_tenure, impute_monthly]
    rfl
  rw [heq, h1] at h2
  simp at h2

/-- C7 (amended): re-applying the imputer to its own output is a no-op
for every record in which total_charges and tenure_months are not both
missing. -/
theorem c7_imputer_idempotent_unless (stats : FeStats) (r : CustomerData)
    (h : ¬(r.total_charges = none ∧ r.tenure_months = none)) :
    handle_missing_values stats (handle_missing_values stats [r])
      = handle_missing_values stats [r] := by
  rw [handle_missing_values_eq_map, handle_missing_values_eq_map]
  simp only [List.map_cons, List.map_nil]
  rw [impute_record_idem stats r h]

/-- C7 witness: idempotence at a concrete record whose total charges
are present. -/
theorem c7_witness :
    handle_missing_values cex_stats (handle_missing_values cex_stats [cex_premium_rec])
      = handle_missing_values cex_stats [cex_premium_rec] :=
  c7_imputer_idempotent_unless cex_stats cex_premium_rec
    (fun hc => Option.noConfusion hc.1)

/-- C9: the cleaning-and-feature-derivation pipeline applied to a batch
equals the map of its single-record application, so each record's
feature row (and hence any scorer's probability on it) is identical to
what the pipeline yields on that record alone. -/
theorem c9_batch_single_equiv (log : ℚ → ℚ) (stats : FeStats)
    (df : List CustomerData) :
    predict_churn_features log stats df
      = df.map (predict_churn_features_single log stats) ∧
    (∀ r : CustomerData, predict_churn_features log stats [r]
      = [predict_churn_features_single log stats r]) ∧
    (∀ scorer : FeatRow → ℚ,
      (predict_churn_features log stats df).map scorer
        = df.map (fun r => scorer (predict_churn_features_single log stats r))) := by
  refine ⟨predict_features_map log stats df,
    fun r => by rw [predict_features_map log stats [r]]; rfl, fun scorer => ?_⟩
  rw [predict_features_map log stats df]
  simp only [List.map_map]
  rfl

/-- C9 witness: batch-equals-scalar at a concrete two-record batch. -/
theorem c9_witness :
    predict_churn_features id cex_stats [cex_tt_rec, cex_premium_rec]
      = [predict_churn_features_single id cex_stats cex_tt_rec,
         predict_churn_features_single id cex_stats cex_premium_rec] :=
  (c9_batch_single_equiv id cex_stats [cex_tt_rec, cex_premium_rec]).1

/-- C10: when the record's service_type is absent from the fitted
median-charges map, the fallback denominator of price_sensitivity is
the record's own monthly_charges, so a strictly positive
monthly_charges gives exactly 1 and a zero monthly_charges divides
0 by 0 and produces no value; usage_tier_ratio's fallback denominator
is guarded by max(data_usage_gb, 1), so it always produces a value. -/
theorem c10_price_sensitivity_fallback (log : ℚ → ℚ) (stats : FeStats)
    (a : AnomRecord) (m : ℚ)
    (hseg : opt_lookup stats.service_type_median_charges a.row.service_type = none)
    (hm : a.row.monthly_charges = some m) :
    (0 < m → (engineer_record log stats a).price_sensitivity = some 1) ∧
    (m = 0 → (engineer_record log stats a).price_sensitivity = none) ∧
    (∀ u : ℚ, a.row.data_usage_gb = some u →
      opt_lookup stats.service_type_median_usage a.row.service_type = none →
      (engineer_record log stats a).usage_tier_ratio = some (u / max u 1)) := by
  refine ⟨?_, ?_, ?_⟩
  · intro hpos
    have hne : m ≠ 0 := ne_of_gt hpos
    simp [engineer_record, hm, hseg, hne, div_self]
  · intro h0
    subst h0
    simp [engineer_record, hm, hseg]
  · intro u hu hseg2
    have hden : max u 1 ≠ 0 :=
      ne_of_gt (lt_of_lt_of_le one_pos (le_max_right u 1))
    simp [engineer_record, hu, hseg2, hden]

/-- C10 witness: the fallback at a concrete Basic-segment record with
positive monthly charges, against statistics lacking a Basic entry. -/
theorem c10_witness :
    (engineer_record id cex_stats (detect_record cex_basic_rec)).price_sensitivity
      = some 1 ∧
    (engineer_record id cex_stats (detect_record cex_basic_rec)).usage_tier_ratio
      = some (50 / max 50 1) := by
  have h := c10_price_sensitivity_fallback id cex_stats
    (detect_record cex_basic_rec) 3000 rfl rfl
  exact ⟨h.1 (by norm_num), h.2.2 50 rfl rfl⟩

/-- C8: the driver explainer evaluates its eight rules in the fixed
order of `driver_rules`, emits one fact per satisfied rule in that
order, and returns only the first 6 matches; every match beyond the
sixth is dropped from the result. -/
theorem c8_driver_rule_table (c : CustomerData) :
    get_top_drivers c = (driver_matches c).take 6 ∧
    (∀ f ∈ (driver_matches c).drop 6, f ∉ get_top_drivers c) := by
  have hmain : get_top_drivers c = (driver_matches c).take 6 := by
    unfold get_top_drivers driver_matches driver_rules
    cases h1 : drv_cond_mtm c <;> cases h2 : drv_cond_new c <;>
      cases h3 : drv_cond_high_value c <;> cases h4 : drv_cond_support c <;>
      cases h5 : drv_cond_late c <;> cases h6 : drv_cond_no_autopay c <;>
      cases h7 : drv_cond_established c <;> cases h8 : drv_cond_referral c <;>
      simp [h1, h2, h3, h4, h5, h6, h7, h8]
  refine ⟨hmain, ?_⟩
  intro f hdrop hmem
  have hnd : (driver_matches c).Nodup := by
    have hsub : (driver_rules.filter (fun pr => pr.1 c)).Sublist driver_rules :=
      List.filter_sublist _
    have hfacts : (driver_rules.map Prod.snd).Nodup := by decide
    exact hfacts.sublist (hsub.map Prod.snd)
  rw [hmain] at hmem
  exact (List.disjoint_take_drop hnd (le_refl 6)) hmem hdrop

/-- C8 witness: on a record satisfying seven rules, the seventh match
in evaluation order (the positive referral fact) is dropped. -/
theorem c8_witness :
    drv_referral ∈ (driver_matches cex_seven_rec).drop 6 ∧
    drv_referral ∉ get_top_drivers cex_seven_rec := by
  have e1 : drv_cond_mtm cex_seven_rec = true := by
    simp [drv_cond_mtm, cex_seven_rec]
  have e2 : drv_cond_new cex_seven_rec = true := by
    simp only [drv_cond_new, cex_seven_rec, Option.getD_some, decide_eq_true_eq]
    norm_num
  have e3 : drv_cond_high_value cex_seven_rec = true := by
    simp only [drv_cond_high_value, cex_seven_rec, Option.getD_some,
      decide_eq_true_eq]
    norm_num
  have e4 : drv_cond_support cex_seven_rec = true := by
    simp only [drv_cond_support, cex_seven_rec, Option.getD_some,
      decide_eq_true_eq]
    norm_num
  have e5 : drv_cond_late cex_seven_rec = true := by
    simp only [drv_cond_late, cex_seven_rec, Option.getD_some, decide_eq_true_eq]
    norm_num
  have e6 : drv_cond_no_autopay cex_seven_rec = true := by
    simp [drv_cond_no_autopay, cex_seven_rec]
  have e7 : drv_cond_established cex_seven_rec = false := by
    simp only [drv_cond_established, cex_seven_rec, Option.getD_some,
      decide_eq_false_iff_not]
    norm_num
  have e8 : drv_cond_referral cex_seven_rec = true := by
    simp only [drv_cond_referral, cex_seven_rec, Option.getD_some,
      decide_eq_true_eq]
    norm_num
  have hm : driver_matches cex_seven_rec
      = [drv_mtm, drv_new, drv_high_value, drv_support, drv_late,
         drv_no_autopay, drv_referral] := by
    simp [driver_matches, driver_rules, e1, e2, e3, e4, e5, e6, e7, e8]
  have h := c8_driver_rule_table cex_seven_rec
  constructor
  · rw [hm]
    decide
  · exact h.2 drv_referral (by rw [hm]; decide)

/-- C6: each per-field categorical normalizer is total (its output lies
in the canonical enumeration) and idempotent, any value outside the
synonym table maps to the field's fixed default, and the record-level
standardizer is idempotent. -/
theorem c6_normalizer_total_idempotent (s : String) (r : CustomerData) :
    (contract_norm s ∈ contract_canon ∧
     contract_norm (contract_norm s) = contract_norm s ∧
     (contract_map.lookup (str_strip s) = none →
       contract_norm s = "Month-to-Month")) ∧
    (payment_norm s ∈ payment_canon ∧
     payment_norm (payment_norm s) = payment_norm s ∧
     (payment_map.lookup (str_strip s) = none → payment_norm s = "M-Pesa")) ∧
    (autopay_norm s ∈ autopay_canon ∧
     autopay_norm (autopay_norm s) = autopay_norm s ∧
     (autopay_map.lookup (str_strip s) = none → autopay_norm s = "No")) ∧
    (service_norm s ∈ valid_services ∧
     service_norm (service_norm s) = service_norm s ∧
     (s ∉ valid_services → service_norm s = "Standard")) ∧
    (location_norm s ∈ valid_locations ∧
     location_norm (location_norm s) = location_norm s ∧
     (s ∉ valid_locations → location_norm s = "Urban")) ∧
    standardize_record (standardize_record r) = standardize_record r := by
  refine ⟨⟨contract_norm_mem s, contract_norm_idem s, ?_⟩,
    ⟨payment_norm_mem s, payment_norm_idem s, ?_⟩,
    ⟨autopay_norm_mem s, autopay_norm_idem s, ?_⟩,
    ⟨service_norm_mem s, service_norm_idem s, ?_⟩,
    ⟨location_norm_mem s, location_norm_idem s, ?_⟩,
    standardize_record_idem r⟩
  · intro h
    unfold contract_norm
    rw [h]
    rfl
  · intro h
    unfold payment_norm
    rw [h]
    rfl
  · intro h
    unfold autopay_norm
    rw [h]
    rfl
  · intro h
    unfold service_norm
    rw [if_neg h]
  · intro h
    unfold location_norm
    rw [if_neg h]

/-- C6 witness: the unrecognized value "weird_value" resolves to each
field's default, and the standardizer fixes its own output on a
concrete record. -/
theorem c6_witness :
    contract_norm "weird_value" = "Month-to-Month" ∧
    payment_norm "weird_value" = "M-Pesa" ∧
    autopay_norm "weird_value" = "No" ∧
    service_norm "weird_value" = "Standard" ∧
    location_norm "weird_value" = "Urban" ∧
    standardize_record (standardize_record cex_tt_rec)
      = standardize_record cex_tt_rec := by
  have h := c6_normalizer_total_idempotent "weird_value" cex_tt_rec
  exact ⟨h.1.2.2 (by decide), h.2.1.2.2 (by decide), h.2.2.1.2.2 (by decide),
    h.2.2.2.1.2.2 (by decide), h.2.2.2.2.1.2.2 (by decide), h.2.2.2.2.2⟩

/-- C4: on the end-to-end scenario record the feature pipeline does
derive is_new_customer = 1 and contract_risk = 2 (the normalizer maps
"Month to Month" to "Month-to-Month" before feature derivation), and
the recommendation list contains the onboarding-specialist action and
the driver list the new-customer fact; but `main` hands the raw,
un-normalized dict to the rule engines, where "Month to Month" fails
the equality test with "Month-to-Month", so the contract-discount
action and the "Month-to-Month Contract" driver are absent, contrary
to the claim. -/
theorem c4_scenario_divergence (log : ℚ → ℚ) (stats : FeStats) (p : ℚ) :
    (predict_churn_features log stats [c4_scenario_rec]).map
      (fun fr => fr.is_new_customer) = [1] ∧
    (predict_churn_features log stats [c4_scenario_rec]).map
      (fun fr => fr.contract_risk) = [some 2] ∧
    rec_onboarding ∈ get_recommendations c4_scenario_rec p ∧
    rec_contract ∉ get_recommendations c4_scenario_rec p ∧
    drv_new ∈ get_top_drivers c4_scenario_rec ∧
    drv_mtm ∉ get_top_drivers c4_scenario_rec := by
  have hst : (standardize_record c4_scenario_rec).contract_type
      = some "Month-to-Month" := by decide
  have hten : (impute_record stats (standardize_record c4_scenario_rec)).tenure_months
      = some 3 := by
    rw [impute_tenure]
    exact congrArg some (max_eq_left (by show (0 : ℚ) ≤ 3; norm_num))
  have hct : (impute_record stats (standardize_record c4_scenario_rec)).contract_type
      = some "Month-to-Month" :=
    ((impute_other_fields stats (standardize_record c4_scenario_rec)).2.1).trans hst
  have hfr : predict_churn_features log stats [c4_scenario_rec]
      = [engineer_record log stats (detect_record
          (impute_record stats (standardize_record c4_scenario_rec)))] := by
    rw [predict_features_map]
    rfl
  have hrow : (detect_record (impute_record stats
      (standardize_record c4_scenario_rec))).row
      = impute_record stats (standardize_record c4_scenario_rec) := rfl
  have g2 : (c4_scenario_rec.contract_type = some "Month-to-Month") = False :=
    eq_false (by decide)
  have g3 : (c4_scenario_rec.tenure_months.getD 12 < 6) = True :=
    eq_true (by norm_num [c4_scenario_rec])
  have g4 : (c4_scenario_rec.autopay_enabled = some "No") = True := eq_true rfl
  have g5 : (c4_scenario_rec.support_calls.getD 0 > 3) = False :=
    eq_false (by norm_num [c4_scenario_rec])
  have g6 : (c4_scenario_rec.monthly_charges.getD 0 > 6200) = False :=
    eq_false (by norm_num [c4_scenario_rec])
  have g7 : (c4_scenario_rec.late_payment_count.getD 0 > 2) = False :=
    eq_false (by norm_num [c4_scenario_rec])
  have f1 : drv_cond_mtm c4_scenario_rec = false := by decide
  have f2 : drv_cond_new c4_scenario_rec = true := by
    simp only [drv_cond_new, c4_scenario_rec, Option.getD_some, decide_eq_true_eq]
    norm_num
  have f3 : drv_cond_high_value c4_scenario_rec = false := by
    simp only [drv_cond_high_value, c4_scenario_rec, Option.getD_some,
      decide_eq_false_iff_not]
    norm_num
  have f4 : drv_cond_support c4_scenario_rec = false := by
    simp only [drv_cond_support, c4_scenario_rec, Option.getD_some,
      decide_eq_false_iff_not]
    norm_num
  have f5 : drv_cond_late c4_scenario_rec = false := by
    simp only [drv_cond_late, c4_scenario_rec, Option.getD_some,
      decide_eq_false_iff_not]
    norm_num
  have f6 : drv_cond_no_autopay c4_scenario_rec = true := by decide
  have f7 : drv_cond_established c4_scenario_rec = false := by
    simp only [drv_cond_established, c4_scenario_rec, Option.getD_some,
      decide_eq_false_iff_not]
    norm_num
  have f8 : drv_cond_referral c4_scenario_rec = false := by
    simp only [drv_cond_referral, c4_scenario_rec, Option.getD_none,
      decide_eq_false_iff_not]
    norm_num
  have hdr : get_top_drivers c4_scenario_rec = [drv_new, drv_no_autopay] := by
    unfold get_top_drivers
    simp [f1, f2, f3, f4, f5, f6, f7, f8]
  refine ⟨?_, ?_, ?_, ?_, ?_, ?_⟩
  · rw [hfr]
    simp only [List.map_cons, List.map_nil]
    have e1 : (engineer_record log stats (detect_record (impute_record stats
        (standardize_record c4_scenario_rec)))).is_new_customer
        = bQ (oLT (impute_record stats
            (standardize_record c4_scenario_rec)).tenure_months 6) := rfl
    rw [e1, hten]
    norm_num [oLT, bQ]
  · rw [hfr]
    simp only [List.map_cons, List.map_nil]
    have e2 : (engineer_record log stats (detect_record (impute_record stats
        (standardize_record c4_scenario_rec)))).contract_risk
        = opt_lookup contract_risk_map (impute_record stats
            (standardize_record c4_scenario_rec)).contract_type := rfl
    rw [e2, hct]
    rfl
  · unfold get_recommendations
    simp only [g2, g3, g4, g5, g6, g7, if_true, if_false]
    by_cases hp : p > HIGH_RISK_THRESHOLD
    · rw [if_pos hp]
      decide
    · rw [if_neg hp]
      decide
  · unfold get_recommendations
    simp only [g2, g3, g4, g5, g6, g7, if_true, if_false]
    by_cases hp : p > HIGH_RISK_THRESHOLD
    · rw [if_pos hp]
      decide
    · rw [if_neg hp]
      decide
  · rw [hdr]
    decide
  · rw [hdr]
    decide
